import Mathlib

/-!
Verification of the expense-tracker core (`src/expensetracker.py`):
the `Expense` record, the `ExpenseTracker` ledger (`add_expense`,
`view_expenses`, `monthly_summary`) and the JSON persistence round-trip
(`save_expenses` / `load_expenses`, `Expense.to_dict` / `Expense.from_dict`).

Modelling conventions:
* Python `float` values are modelled by `PyFloat`: an exact rational for the
  finite case plus the three non-finite values `nan`, `inf`, `ninf`.
  Comparisons and addition follow IEEE-754 ordering/propagation rules
  (`nan` compares false to everything, `inf + ninf = nan`, ...), while
  finite arithmetic is exact.
* A value stored in the `amount` attribute is a `PyVal`: a float, or (for
  records read back from an externally edited JSON file) an arbitrary
  string — `Expense.from_dict` performs no type check on `data["amount"]`.
* A `date` string of shape `YYYY-MM-DD` is abstracted to its numeral
  content `DateText` (year, month, day); the calendar-validity
  check of `strptime` and the formatting of `strftime` become `strptimeDate`/`strftimeDate`
  on these triples.
* The JSON file content is the list of serialized records
  (`List RawExpense`); a missing file is `none`.  Exceptions become
  `Except`; the possibility that the file-system write fails is an
  explicit `saveOk` parameter to `add_expense`.
* The dynamically typed Python return channel of `add_expense` (the source
  returns `True`; the spec says it returns the record) is `PyReturn`.
-/

/-- Decidable equality on `Except`, so that concrete runs of the fallible
operations can be checked with `decide`. -/
instance instDecEqExcept {ε α : Type} [DecidableEq ε] [DecidableEq α] :
    DecidableEq (Except ε α)
  | .error a, .error b =>
    if h : a = b then .isTrue (by rw [h]) else .isFalse (by simp [h])
  | .error _, .ok _ => .isFalse (by simp)
  | .ok _, .error _ => .isFalse (by simp)
  | .ok a, .ok b =>
    if h : a = b then .isTrue (by rw [h]) else .isFalse (by simp [h])

/-- A Python `float` value: exact finite rational, or `nan`/`inf`/`-inf`. -/
inductive PyFloat where
  | fin (q : ℚ)
  | nan
  | inf
  | ninf
  deriving DecidableEq

namespace PyFloat

/-- IEEE-style addition on `PyFloat` (finite part exact): `nan` propagates,
`inf + (-inf) = nan`, infinities absorb finite values. -/
def add : PyFloat → PyFloat → PyFloat
  | nan, _ => nan
  | _, nan => nan
  | inf, ninf => nan
  | ninf, inf => nan
  | inf, _ => inf
  | _, inf => inf
  | ninf, _ => ninf
  | _, ninf => ninf
  | fin a, fin b => fin (a + b)

instance : Add PyFloat := ⟨PyFloat.add⟩
instance : Zero PyFloat := ⟨PyFloat.fin 0⟩

/-- The Python comparison `x <= 0` (used by the `add_expense` validation):
false for `nan` (unordered) and for `inf`. -/
def le0 : PyFloat → Bool
  | fin q => decide (q ≤ 0)
  | nan => false
  | inf => false
  | ninf => true

/-- The Python comparison `x > 0` (the `amount > 0` invariant of the spec):
false for `nan` (unordered). -/
def gt0 : PyFloat → Bool
  | fin q => decide (0 < q)
  | nan => false
  | inf => true
  | ninf => false

end PyFloat

/-- A Python value that an `amount` attribute can hold: a float (the only
thing `add_expense` ever stores) or a raw string carried in from a JSON
file that was edited externally. -/
inductive PyVal where
  | num (x : PyFloat)
  | str (s : String)
  deriving DecidableEq

/-- The float content of an amount value (junk value `0` on strings; only
used under the hypothesis that the amount is a float). -/
def amountFloat : PyVal → PyFloat
  | .num x => x
  | .str _ => 0

/-- A calendar date as held by a Python `datetime.date` object. -/
structure Date where
  year : ℕ
  month : ℕ
  day : ℕ
  deriving DecidableEq

/-- Gregorian leap year, as used by `datetime`. -/
def isLeap (y : ℕ) : Bool := (y % 4 == 0 && y % 100 != 0) || (y % 400 == 0)

/-- Number of days of month `m` in year `y`. -/
def daysInMonth (y m : ℕ) : ℕ :=
  if m = 2 then (if isLeap y then 29 else 28)
  else if m = 4 ∨ m = 6 ∨ m = 9 ∨ m = 11 then 30
  else 31

/-- The validity condition `datetime.strptime`/`datetime.date` enforce:
year in `1..9999` (`MINYEAR..MAXYEAR`), month in `1..12`, day within the
month. -/
def Date.valid (d : Date) : Bool :=
  1 ≤ d.year && d.year ≤ 9999 && 1 ≤ d.month && d.month ≤ 12 &&
    1 ≤ d.day && d.day ≤ daysInMonth d.year d.month

/-- The numeral content of a date string of shape `YYYY-MM-DD` (the
serialized form produced by `strftime("%Y-%m-%d")`). -/
structure DateText where
  year : ℕ
  month : ℕ
  day : ℕ
  deriving DecidableEq

/-- `date.strftime("%Y-%m-%d")`, abstracted to the numeral triple. -/
def strftimeDate (d : Date) : DateText := ⟨d.year, d.month, d.day⟩

/-- `datetime.strptime(s, "%Y-%m-%d").date()` on a string of shape
`YYYY-MM-DD`: succeeds exactly when the triple is a valid calendar date,
otherwise raises `ValueError` (here: `none`). -/
def strptimeDate (t : DateText) : Option Date :=
  if (Date.mk t.year t.month t.day).valid then some ⟨t.year, t.month, t.day⟩ else none

/-- The `Expense` class: `amount`, `category`, `date`, `description`. -/
structure Expense where
  amount : PyVal
  category : String
  date : Date
  description : String
  deriving DecidableEq

/-- A serialized record as stored in the JSON file: the dictionary built by
`Expense.to_dict` (or found in an externally written file).  `description`
is optional — `from_dict` uses `data.get("description", "")`. -/
structure RawExpense where
  amount : PyVal
  category : String
  date : DateText
  description : Option String
  deriving DecidableEq

namespace Expense

/-- `Expense.to_dict`. -/
def to_dict (e : Expense) : RawExpense :=
  { amount := e.amount
    category := e.category
    date := strftimeDate e.date
    description := some e.description }

/-- `Expense.from_dict`: parses the date with `strptime` (raising on an
invalid date), copies `amount` and `category` unchecked, defaults a missing
`description` to `""`. -/
def from_dict (r : RawExpense) : Except String Expense :=
  match strptimeDate r.date with
  | none => .error "time data does not match format %Y-%m-%d"
  | some d => .ok { amount := r.amount, category := r.category, date := d,
                    description := r.description.getD "" }

end Expense

/-- The category list assigned in `ExpenseTracker.__init__`. -/
def defaultCategories : List String :=
  ["Food", "Transportation", "Entertainment", "Utilities",
   "Rent/Mortgage", "Healthcare", "Education", "Shopping", "Other"]

/-- The in-memory state of an `ExpenseTracker` instance. -/
structure ExpenseTracker where
  expenses : List Expense
  filename : String
  categories : List String
  deriving DecidableEq

namespace ExpenseTracker

/-- `ExpenseTracker.save_expenses`: the JSON content written —
`[e.to_dict() for e in self.expenses]`. -/
def save_expenses (t : ExpenseTracker) : List RawExpense :=
  t.expenses.map Expense.to_dict

/-- The list comprehension `[Expense.from_dict(item) for item in data]`:
items are converted in order and the first exception propagates. -/
def from_dict_list : List RawExpense → Except String (List Expense)
  | [] => .ok []
  | r :: rs =>
    match Expense.from_dict r with
    | .error e => .error e
    | .ok e =>
      match from_dict_list rs with
      | .error e2 => .error e2
      | .ok es => .ok (e :: es)

/-- `ExpenseTracker.load_expenses`: if the file does not exist (`none`) the
expense list is left as it is (empty after `__init__`); otherwise the
parsed records replace it, any exception being re-raised as
`Error loading expenses`. -/
def load_expenses (t : ExpenseTracker) (file : Option (List RawExpense)) :
    Except String ExpenseTracker :=
  match file with
  | none => .ok t
  | some data =>
    match from_dict_list data with
    | .error e => .error ("Error loading expenses: " ++ e)
    | .ok es => .ok { t with expenses := es }

/-- `ExpenseTracker.__init__(filename)`: empty list, the fixed category
list, then `load_expenses()` from the given file content. -/
def init (filename : String) (file : Option (List RawExpense)) :
    Except String ExpenseTracker :=
  load_expenses ⟨[], filename, defaultCategories⟩ file

end ExpenseTracker

/-- The `amount` argument of `add_expense` after the `float(amount)` call:
either the conversion succeeds with some float value, or (for a non-numeric
string) it raises `ValueError`. -/
inductive AmountInput where
  | ofFloat (x : PyFloat)
  | badStr (s : String)
  deriving DecidableEq

/-- The `date` argument of `add_expense`: a string of shape `YYYY-MM-DD`
(still subject to calendar validation), a string not of that shape at all,
or an already-constructed `datetime.date` object (used unvalidated). -/
inductive DateInput where
  | text (t : DateText)
  | badText (s : String)
  | obj (d : Date)
  deriving DecidableEq

/-- The `if isinstance(date, str): date = strptime(...)` step of
`add_expense`. -/
def parseDateInput : DateInput → Except String Date
  | .text t =>
    match strptimeDate t with
    | some d => .ok d
    | none => .error "time data does not match format %Y-%m-%d"
  | .badText _ => .error "time data does not match format %Y-%m-%d"
  | .obj d => .ok d

/-- The exception `add_expense` raises: a re-raised `ValueError`
(validation failure) or a generic `Exception` (persistence failure). -/
inductive AddError where
  | validation (msg : String)
  | other (msg : String)
  deriving DecidableEq

/-- The dynamically-typed value `add_expense` returns on success.  The
source returns `True`; the type also admits an `Expense`, which is what
the spec says the call returns. -/
inductive PyReturn where
  | bool (b : Bool)
  | record (e : Expense)
  deriving DecidableEq

/-- Everything observable about one `add_expense` call: the tracker state
after the call, the returned value or raised exception, whether
`save_expenses` was invoked, and the file content written when the save
succeeded. -/
structure AddResult where
  tracker : ExpenseTracker
  result : Except AddError PyReturn
  saveCalled : Bool
  saved : Option (List RawExpense)

namespace ExpenseTracker

/-- `ExpenseTracker.add_expense(amount, category, date, description)`.
`saveOk` models whether the file-system write in `save_expenses` succeeds.
The flow mirrors the source: `float(amount)` (ValueError on a bad string),
the `amount <= 0` check, the `category not in self.categories` check, the
`strptime` date parse for string dates, then append-and-save; a
`ValueError` is re-raised as `Invalid input: ...`, a save failure as
`Error adding expense: ...` — after the append, which is not rolled
back. -/
def add_expense (t : ExpenseTracker) (saveOk : Bool) (amount : AmountInput)
    (category : String) (date : DateInput) (description : String) : AddResult :=
  match amount with
  | .badStr s =>
    ⟨t, .error (.validation ("Invalid input: could not convert string to float: " ++ s)),
      false, none⟩
  | .ofFloat x =>
    if x.le0 then
      ⟨t, .error (.validation "Invalid input: Expense amount must be positive"), false, none⟩
    else if category ∈ t.categories then
      match parseDateInput date with
      | .error m => ⟨t, .error (.validation ("Invalid input: " ++ m)), false, none⟩
      | .ok d =>
        let t2 : ExpenseTracker :=
          { t with expenses := t.expenses ++ [⟨.num x, category, d, description⟩] }
        if saveOk then
          ⟨t2, .ok (.bool true), true, some t2.save_expenses⟩
        else
          ⟨t2, .error (.other "Error adding expense: Error saving expenses"), true, none⟩
    else
      ⟨t, .error (.validation "Invalid input: Invalid category"), false, none⟩

/-- `ExpenseTracker.view_expenses(filter_category, filter_month,
filter_year)`: three successive list-comprehension filters; the category
filter is skipped when falsy (`None` or `""`) or equal to `"All"`, the
month/year filters when falsy (`None` or `0`). -/
def view_expenses (t : ExpenseTracker) (filter_category : Option String)
    (filter_month : Option ℕ) (filter_year : Option ℕ) : List Expense :=
  let fe := t.expenses
  let fe := match filter_category with
    | none => fe
    | some c => if c ≠ "" ∧ c ≠ "All" then fe.filter (fun e => e.category == c) else fe
  let fe := match filter_month with
    | none => fe
    | some m => if m ≠ 0 then fe.filter (fun e => e.date.month == m) else fe
  let fe := match filter_year with
    | none => fe
    | some y => if y ≠ 0 then fe.filter (fun e => e.date.year == y) else fe
  fe

end ExpenseTracker

/-- The value of `monthly_summary`: `total`, `by_category` (a Python dict,
modelled as an association list in key-insertion order), `count`. -/
structure Summary where
  total : PyFloat
  by_category : List (String × PyFloat)
  count : ℕ
  deriving DecidableEq

/-- `0 + v` / `acc + v` steps of the Python `sum` builtin: adding an amount value to
a float accumulator raises `TypeError` (`none`) when the amount is a
string. -/
def pyAdd (a : PyFloat) (v : PyVal) : Option PyFloat :=
  match v with
  | .num x => some (a.add x)
  | .str _ => none

/-- `sum(e.amount for e in ...)`: left fold starting from `0`, raising
`TypeError` at the first non-float amount. -/
def pySum (l : List PyVal) : Option PyFloat :=
  l.foldl (fun acc v => acc.bind fun a => pyAdd a v) (some 0)

/-- One `by_category[expense.category] += expense.amount` step on a
`defaultdict(float)`: update the existing entry in place, or append a new
entry `(c, 0.0 + x)` in insertion order. -/
def bumpCategory : List (String × PyFloat) → String → PyFloat → List (String × PyFloat)
  | [], c, x => [(c, PyFloat.add 0 x)]
  | (c1, v) :: rest, c, x =>
    if c1 = c then (c1, v.add x) :: rest else (c1, v) :: bumpCategory rest c x

/-- The `for expense in monthly_expenses: by_category[...] += ...` loop,
raising `TypeError` on a string amount. -/
def byCategoryFold (sel : List Expense) : Option (List (String × PyFloat)) :=
  sel.foldl
    (fun acc e => acc.bind fun bc =>
      match e.amount with
      | .num x => some (bumpCategory bc e.category x)
      | .str _ => none)
    (some [])

namespace ExpenseTracker

/-- `ExpenseTracker.monthly_summary(month, year)`.  `nowMonth`/`nowYear`
are the fields of `datetime.datetime.now()`, substituted when the corresponding
argument is falsy (`None` or `0`). -/
def monthly_summary (t : ExpenseTracker) (nowMonth nowYear : ℕ)
    (month year : Option ℕ) : Except String Summary :=
  let m := match month with
    | none => nowMonth
    | some m0 => if m0 = 0 then nowMonth else m0
  let y := match year with
    | none => nowYear
    | some y0 => if y0 = 0 then nowYear else y0
  let monthly_expenses := t.expenses.filter
    (fun e => e.date.month == m && e.date.year == y)
  match pySum (monthly_expenses.map Expense.amount) with
  | none => .error "TypeError: unsupported operand type for +"
  | some total =>
    match byCategoryFold monthly_expenses with
    | none => .error "TypeError: unsupported operand type for +"
    | some bc => .ok ⟨total, bc, monthly_expenses.length⟩

end ExpenseTracker

/-- The records of a ledger whose date falls in month `m` of year `y`
(the `monthly_expenses` selection of `monthly_summary`). -/
def selectedForMonth (t : ExpenseTracker) (m y : ℕ) : List Expense :=
  t.expenses.filter (fun e => e.date.month == m && e.date.year == y)

/-- Sum of a list of Python floats, starting from `0.0`. -/
def sumF : List PyFloat → PyFloat
  | [] => 0
  | x :: xs => x.add (sumF xs)

/-- Lookup in the `by_category` association list (first matching key, as in
a Python dict). -/
def lookupCat : List (String × PyFloat) → String → Option PyFloat
  | [], _ => none
  | (c1, v) :: rest, c => if c1 = c then some v else lookupCat rest c

/-- `lookupCat` with default `0.0` (the `defaultdict(float)` default). -/
def lookupCatD (bc : List (String × PyFloat)) (c : String) : PyFloat :=
  (lookupCat bc c).getD 0

/-- The record-matching predicate that claim C4 describes: a record
matches when, on each dimension, either no constraint is imposed (filter
absent, or the falsy/`"All"` sentinel) or the field of the record equals the
filter value. -/
def matchesFilters (fc : Option String) (fm fy : Option ℕ) (e : Expense) : Bool :=
  (match fc with
   | none => true
   | some c => (c == "") || (c == "All") || (e.category == c))
  && (match fm with
      | none => true
      | some m => (m == 0) || (e.date.month == m))
  && (match fy with
      | none => true
      | some y => (y == 0) || (e.date.year == y))

namespace PyFloat

theorem add_fin_zero (x : PyFloat) : (fin 0).add x = x := by
  cases x <;> simp [add]

theorem add_zero_fin (x : PyFloat) : x.add (fin 0) = x := by
  cases x <;> simp [add]

theorem addComm (a b : PyFloat) : a.add b = b.add a := by
  cases a <;> cases b <;> simp [add, add_comm]

theorem addAssoc (a b c : PyFloat) : (a.add b).add c = a.add (b.add c) := by
  cases a <;> cases b <;> cases c <;> simp [add, add_assoc]

end PyFloat

theorem sumF_nil : sumF [] = PyFloat.fin 0 := rfl

theorem sumF_cons (x : PyFloat) (xs : List PyFloat) :
    sumF (x :: xs) = x.add (sumF xs) := rfl

/-- `from_dict` succeeds exactly on records whose date string parses,
copying everything else through. -/
theorem from_dict_ok (r : RawExpense) (d : Date) (h : strptimeDate r.date = some d) :
    Expense.from_dict r =
      .ok ⟨r.amount, r.category, d, r.description.getD ""⟩ := by
  simp [Expense.from_dict, h]

/-- `from_dict` inverts `to_dict` on any expense with a valid date. -/
theorem from_dict_to_dict (e : Expense) (h : e.date.valid = true) :
    Expense.from_dict (Expense.to_dict e) = .ok e := by
  have hs : strptimeDate (strftimeDate e.date) = some e.date := by
    have heta : Date.mk e.date.year e.date.month e.date.day = e.date := rfl
    simp [strptimeDate, strftimeDate, heta, h]
  have hfd := from_dict_ok (Expense.to_dict e) e.date
    (by simpa [Expense.to_dict] using hs)
  simpa [Expense.to_dict] using hfd

theorem from_dict_list_map_to_dict (es : List Expense)
    (h : ∀ e ∈ es, e.date.valid = true) :
    ExpenseTracker.from_dict_list (es.map Expense.to_dict) = .ok es := by
  induction es with
  | nil => rfl
  | cons e rest ih =>
    have he : e.date.valid = true := h e (by simp)
    have hrest := ih (fun x hx => h x (by simp [hx]))
    simp [ExpenseTracker.from_dict_list, from_dict_to_dict e he, hrest]

/-- Under the hypothesis that every date string in the file parses,
`from_dict_list` succeeds and copies `amount` and `category` through
unchanged. -/
theorem from_dict_list_ok (data : List RawExpense)
    (h : ∀ r ∈ data, (strptimeDate r.date).isSome) :
    ∃ es, ExpenseTracker.from_dict_list data = .ok es ∧
      es.map Expense.amount = data.map RawExpense.amount ∧
      es.map Expense.category = data.map RawExpense.category ∧
      es.length = data.length := by
  induction data with
  | nil => exact ⟨[], rfl, rfl, rfl, rfl⟩
  | cons r rest ih =>
    obtain ⟨d, hd⟩ := Option.isSome_iff_exists.mp (h r (by simp))
    obtain ⟨es, hes, ha, hc, hl⟩ := ih (fun x hx => h x (by simp [hx]))
    refine ⟨⟨r.amount, r.category, d, r.description.getD ""⟩ :: es, ?_, ?_, ?_, ?_⟩ <;>
      simp [ExpenseTracker.from_dict_list, from_dict_ok r d hd, hes, ha, hc, hl]

/-- C1: saving a sequence of valid expense records and loading it back
yields the same sequence — same amount, category, date and description, in
the same order.  `save_expenses` writes `[e.to_dict() for e in expenses]`;
`__init__`/`load_expenses` parses it back with `Expense.from_dict`. -/
theorem c1_save_load_roundtrip (fn fn2 : String) (es : List Expense)
    (hne : es ≠ [])
    (hvalid : ∀ e ∈ es, e.date.valid = true)
    (hamount : ∀ e ∈ es, ∃ q : ℚ, e.amount = .num (.fin q) ∧ 0 < q) :
    ExpenseTracker.init fn2
        (some (ExpenseTracker.save_expenses ⟨es, fn, defaultCategories⟩)) =
      .ok ⟨es, fn2, defaultCategories⟩ := by
  simp [ExpenseTracker.init, ExpenseTracker.load_expenses, ExpenseTracker.save_expenses,
    from_dict_list_map_to_dict es hvalid]

/-- Witness for C1: a concrete two-record ledger round-trips. -/
theorem c1_roundtrip_witness :
    ExpenseTracker.init "expenses.json"
        (some (ExpenseTracker.save_expenses
          ⟨[⟨.num (.fin 50), "Food", ⟨2024, 3, 5⟩, "lunch"⟩,
            ⟨.num (.fin 100), "Rent/Mortgage", ⟨2024, 2, 29⟩, ""⟩],
           "expenses.json", defaultCategories⟩)) =
      .ok ⟨[⟨.num (.fin 50), "Food", ⟨2024, 3, 5⟩, "lunch"⟩,
            ⟨.num (.fin 100), "Rent/Mortgage", ⟨2024, 2, 29⟩, ""⟩],
           "expenses.json", defaultCategories⟩ :=
  c1_save_load_roundtrip "expenses.json" "expenses.json" _
    (by decide)
    (by decide)
    (by
      intro e he
      simp only [List.mem_cons, List.not_mem_nil, or_false] at he
      rcases he with rfl | rfl
      · exact ⟨50, rfl, by norm_num⟩
      · exact ⟨100, rfl, by norm_num⟩)

/-- C8: when the configured file path is absent `load_expenses` leaves the
ledger empty rather than failing, and a parsed record that omits
`description` gets the empty string via `data.get("description", "")`. -/
theorem c8_missing_file_and_default_description (fn : String)
    (r : RawExpense) (d : Date)
    (hdate : strptimeDate r.date = some d)
    (hdesc : r.description = none) :
    ExpenseTracker.init fn none = .ok ⟨[], fn, defaultCategories⟩ ∧
      Expense.from_dict r = .ok ⟨r.amount, r.category, d, ""⟩ := by
  constructor
  · rfl
  · simp [from_dict_ok r d hdate, hdesc]

/-- Witness for C8: a concrete record without a `description` field. -/
theorem c8_witness :
    (strptimeDate (⟨2024, 1, 2⟩ : DateText) =
        some (⟨2024, 1, 2⟩ : Date) ∧
      (⟨.num (.fin 7), "Food", ⟨2024, 1, 2⟩, none⟩ : RawExpense).description = none) ∧
    (ExpenseTracker.init "expenses.json" none =
        .ok ⟨[], "expenses.json", defaultCategories⟩ ∧
      Expense.from_dict ⟨.num (.fin 7), "Food", ⟨2024, 1, 2⟩, none⟩ =
        .ok ⟨.num (.fin 7), "Food", ⟨2024, 1, 2⟩, ""⟩) :=
  ⟨⟨by decide, rfl⟩,
    c8_missing_file_and_default_description "expenses.json"
      ⟨.num (.fin 7), "Food", ⟨2024, 1, 2⟩, none⟩ ⟨2024, 1, 2⟩ (by decide) rfl⟩

/-- C10 (implicit): `load_expenses`/`from_dict` never look at the `amount`
field — whenever every date in the file parses, loading succeeds and every
amount value (zero, negative, even a non-numeric string) is carried into
the ledger as-is; the `amount > 0` invariant is enforced only by
`add_expense`. -/
theorem c10_load_skips_amount_validation (fn : String) (data : List RawExpense)
    (hdates : ∀ r ∈ data, (strptimeDate r.date).isSome) :
    ∃ t, ExpenseTracker.init fn (some data) = .ok t ∧
      t.expenses.map Expense.amount = data.map RawExpense.amount ∧
      t.expenses.map Expense.category = data.map RawExpense.category := by
  obtain ⟨es, hes, ha, hc, _⟩ := from_dict_list_ok data hdates
  exact ⟨⟨es, fn, defaultCategories⟩,
    by simp [ExpenseTracker.init, ExpenseTracker.load_expenses, hes], ha, hc⟩

/-- Witness for C10: a file holding a string amount and a negative amount
loads without complaint, amounts intact. -/
theorem c10_witness :
    (∀ r ∈ [(⟨.str "oops", "Food", ⟨2024, 1, 2⟩, some "x"⟩ : RawExpense),
            ⟨.num (.fin (-5)), "Food", ⟨2024, 1, 3⟩, none⟩],
        (strptimeDate r.date).isSome) ∧
    ∃ t, ExpenseTracker.init "expenses.json"
          (some [⟨.str "oops", "Food", ⟨2024, 1, 2⟩, some "x"⟩,
                 ⟨.num (.fin (-5)), "Food", ⟨2024, 1, 3⟩, none⟩]) = .ok t ∧
      t.expenses.map Expense.amount =
        ([⟨.str "oops", "Food", ⟨2024, 1, 2⟩, some "x"⟩,
          ⟨.num (.fin (-5)), "Food", ⟨2024, 1, 3⟩, none⟩] : List RawExpense).map
          RawExpense.amount ∧
      t.expenses.map Expense.category =
        ([⟨.str "oops", "Food", ⟨2024, 1, 2⟩, some "x"⟩,
          ⟨.num (.fin (-5)), "Food", ⟨2024, 1, 3⟩, none⟩] : List RawExpense).map
          RawExpense.category :=
  ⟨by decide, c10_load_skips_amount_validation "expenses.json" _ (by decide)⟩

/-- Any `add_expense` call whose `category` argument is not in the
category list of the tracker raises a `ValueError` (validation error) and
leaves the state untouched, whatever the other arguments are. -/
theorem add_expense_bad_category (t : ExpenseTracker) (saveOk : Bool)
    (amount : AmountInput) (category : String) (date : DateInput) (desc : String)
    (hcat : category ∉ t.categories) :
    ∃ msg, (t.add_expense saveOk amount category date desc).result =
        .error (.validation msg) ∧
      (t.add_expense saveOk amount category date desc).tracker = t ∧
      (t.add_expense saveOk amount category date desc).saveCalled = false := by
  cases amount with
  | badStr s =>
    exact ⟨"Invalid input: could not convert string to float: " ++ s, rfl, rfl, rfl⟩
  | ofFloat x =>
    by_cases hle : x.le0
    · exact ⟨"Invalid input: Expense amount must be positive",
        by simp [ExpenseTracker.add_expense, hle],
        by simp [ExpenseTracker.add_expense, hle],
        by simp [ExpenseTracker.add_expense, hle]⟩
    · exact ⟨"Invalid input: Invalid category",
        by simp [ExpenseTracker.add_expense, hle, hcat],
        by simp [ExpenseTracker.add_expense, hle, hcat],
        by simp [ExpenseTracker.add_expense, hle, hcat]⟩

/-- C7: a persisted file with a record whose category (e.g. `"Groceries"`)
is outside the fixed enumeration loads without error and the value is
carried through opaquely — an unfiltered `view_expenses` returns such a
record — but re-`add`ing with that category always raises a validation
error. -/
theorem c7_unknown_category_load_ok_add_rejected (fn : String)
    (data : List RawExpense) (raw : RawExpense)
    (hdates : ∀ r ∈ data, (strptimeDate r.date).isSome)
    (hmem : raw ∈ data)
    (hcat : raw.category ∉ defaultCategories) :
    ∃ t, ExpenseTracker.init fn (some data) = .ok t ∧
      (∃ e ∈ t.view_expenses none none none, e.category = raw.category) ∧
      (∀ saveOk amount date desc, ∃ msg,
        (t.add_expense saveOk amount raw.category date desc).result =
            .error (.validation msg) ∧
          (t.add_expense saveOk amount raw.category date desc).tracker = t) := by
  obtain ⟨es, hes, _, hc, _⟩ := from_dict_list_ok data hdates
  refine ⟨⟨es, fn, defaultCategories⟩,
    by simp [ExpenseTracker.init, ExpenseTracker.load_expenses, hes], ?_, ?_⟩
  · have : raw.category ∈ es.map Expense.category := by
      rw [hc]; exact List.mem_map_of_mem RawExpense.category hmem
    obtain ⟨e, he, hceq⟩ := List.mem_map.mp this
    exact ⟨e, he, hceq⟩
  · intro saveOk amount date desc
    obtain ⟨msg, h1, h2, _⟩ :=
      add_expense_bad_category ⟨es, fn, defaultCategories⟩ saveOk amount
        raw.category date desc hcat
    exact ⟨msg, h1, h2⟩

/-- Witness for C7: a file containing a `"Groceries"` record. -/
theorem c7_witness :
    ((∀ r ∈ [(⟨.num (.fin 30), "Groceries", ⟨2024, 1, 2⟩, some "veg"⟩ : RawExpense)],
        (strptimeDate r.date).isSome) ∧
      (⟨.num (.fin 30), "Groceries", ⟨2024, 1, 2⟩, some "veg"⟩ : RawExpense) ∈
        [(⟨.num (.fin 30), "Groceries", ⟨2024, 1, 2⟩, some "veg"⟩ : RawExpense)] ∧
      (⟨.num (.fin 30), "Groceries", ⟨2024, 1, 2⟩, some "veg"⟩ : RawExpense).category ∉
        defaultCategories) ∧
    (∃ t, ExpenseTracker.init "expenses.json"
          (some [⟨.num (.fin 30), "Groceries", ⟨2024, 1, 2⟩, some "veg"⟩]) = .ok t ∧
      (∃ e ∈ t.view_expenses none none none,
        e.category = (⟨.num (.fin 30), "Groceries", ⟨2024, 1, 2⟩, some "veg"⟩ : RawExpense).category) ∧
      (∀ saveOk amount date desc, ∃ msg,
        (t.add_expense saveOk amount
            (⟨.num (.fin 30), "Groceries", ⟨2024, 1, 2⟩, some "veg"⟩ : RawExpense).category
            date desc).result = .error (.validation msg) ∧
          (t.add_expense saveOk amount
            (⟨.num (.fin 30), "Groceries", ⟨2024, 1, 2⟩, some "veg"⟩ : RawExpense).category
            date desc).tracker = t)) :=
  ⟨⟨by decide, by decide, by decide⟩,
    c7_unknown_category_load_ok_add_rejected "expenses.json" _ _
      (by decide) (by decide) (by decide)⟩

/-- C2: whenever the amount is non-numeric or compares `<= 0`, or the
category is not in the category list of the tracker, or the date is text that
does not parse as `YYYY-MM-DD`, `add_expense` raises a `ValueError`
(validation error), the expense list is exactly what it was, and
`save_expenses` is never invoked. -/
theorem c2_validation_leaves_state_unchanged (t : ExpenseTracker) (saveOk : Bool)
    (amount : AmountInput) (category : String) (date : DateInput) (desc : String)
    (hbad : (∃ s, amount = .badStr s) ∨
      (∃ x, amount = .ofFloat x ∧ x.le0 = true) ∨
      category ∉ t.categories ∨
      (∃ m, parseDateInput date = .error m)) :
    ∃ msg, (t.add_expense saveOk amount category date desc).result =
        .error (.validation msg) ∧
      (t.add_expense saveOk amount category date desc).tracker = t ∧
      (t.add_expense saveOk amount category date desc).saveCalled = false := by
  cases amount with
  | badStr s =>
    exact ⟨"Invalid input: could not convert string to float: " ++ s, rfl, rfl, rfl⟩
  | ofFloat x =>
    by_cases hle : x.le0
    · exact ⟨"Invalid input: Expense amount must be positive",
        by simp [ExpenseTracker.add_expense, hle],
        by simp [ExpenseTracker.add_expense, hle],
        by simp [ExpenseTracker.add_expense, hle]⟩
    · by_cases hcat : category ∈ t.categories
      · have hdate : ∃ m, parseDateInput date = .error m := by
          rcases hbad with ⟨s, hs⟩ | ⟨x2, hx2, hle2⟩ | hc | hd
          · exact absurd hs (by simp)
          · rw [show x2 = x from by injection hx2 with h; exact h.symm] at hle2
            exact absurd hle2 hle
          · exact absurd hcat hc
          · exact hd
        obtain ⟨m, hm⟩ := hdate
        exact ⟨"Invalid input: " ++ m,
          by simp [ExpenseTracker.add_expense, hle, hcat, hm],
          by simp [ExpenseTracker.add_expense, hle, hcat, hm],
          by simp [ExpenseTracker.add_expense, hle, hcat, hm]⟩
      · exact ⟨"Invalid input: Invalid category",
          by simp [ExpenseTracker.add_expense, hle, hcat],
          by simp [ExpenseTracker.add_expense, hle, hcat],
          by simp [ExpenseTracker.add_expense, hle, hcat]⟩

/-- Witness for C2: a zero amount is rejected and the ledger (here holding
one record already) is untouched. -/
theorem c2_witness :
    ((∃ s, (AmountInput.ofFloat (.fin 0)) = .badStr s) ∨
      (∃ x, (AmountInput.ofFloat (.fin 0)) = .ofFloat x ∧ x.le0 = true) ∨
      "Food" ∉ (⟨[⟨.num (.fin 50), "Food", ⟨2024, 3, 5⟩, "lunch"⟩],
          "expenses.json", defaultCategories⟩ : ExpenseTracker).categories ∨
      (∃ m, parseDateInput (.text ⟨2024, 3, 6⟩) = .error m)) ∧
    ∃ msg, ((⟨[⟨.num (.fin 50), "Food", ⟨2024, 3, 5⟩, "lunch"⟩],
          "expenses.json", defaultCategories⟩ : ExpenseTracker).add_expense true
          (.ofFloat (.fin 0)) "Food" (.text ⟨2024, 3, 6⟩) "").result =
        .error (.validation msg) ∧
      ((⟨[⟨.num (.fin 50), "Food", ⟨2024, 3, 5⟩, "lunch"⟩],
          "expenses.json", defaultCategories⟩ : ExpenseTracker).add_expense true
          (.ofFloat (.fin 0)) "Food" (.text ⟨2024, 3, 6⟩) "").tracker =
        ⟨[⟨.num (.fin 50), "Food", ⟨2024, 3, 5⟩, "lunch"⟩],
          "expenses.json", defaultCategories⟩ ∧
      ((⟨[⟨.num (.fin 50), "Food", ⟨2024, 3, 5⟩, "lunch"⟩],
          "expenses.json", defaultCategories⟩ : ExpenseTracker).add_expense true
          (.ofFloat (.fin 0)) "Food" (.text ⟨2024, 3, 6⟩) "").saveCalled = false :=
  ⟨Or.inr (Or.inl ⟨.fin 0, rfl, by norm_num [PyFloat.le0]⟩),
    c2_validation_leaves_state_unchanged _ true (.ofFloat (.fin 0)) "Food"
      (.text ⟨2024, 3, 6⟩) ""
      (Or.inr (Or.inl ⟨.fin 0, rfl, by norm_num [PyFloat.le0]⟩))⟩

/-- C5 (code bug): with amount `float("nan")` the `amount <= 0` check is
false (NaN is unordered), so `add_expense` succeeds and stores a record
whose amount is *not* `> 0` — the `amount > 0` invariant claimed by the
spec is violated; the error message in the code itself (`"Expense amount must be
positive"`) shows the check was meant to enforce positivity. -/
theorem c5_nan_breaks_positive_invariant :
    ((⟨[], "expenses.json", defaultCategories⟩ : ExpenseTracker).add_expense true
        (.ofFloat .nan) "Food" (.obj ⟨2024, 3, 5⟩) "lunch").result =
      .ok (.bool true) ∧
    ((⟨[], "expenses.json", defaultCategories⟩ : ExpenseTracker).add_expense true
        (.ofFloat .nan) "Food" (.obj ⟨2024, 3, 5⟩) "lunch").tracker.expenses =
      [⟨.num .nan, "Food", ⟨2024, 3, 5⟩, "lunch"⟩] ∧
    PyFloat.le0 .nan = false ∧
    PyFloat.gt0 .nan = false := by
  refine ⟨rfl, rfl, rfl, rfl⟩

/-- C9: on a valid input whose save fails, `add_expense` surfaces a
generic `Exception` (`Error adding expense: ...`) — a distinct,
non-validation, non-silent persistence error — while the freshly appended
record stays in `self.expenses` (no rollback). -/
theorem c9_save_failure_surfaced_record_kept (t : ExpenseTracker) (q : ℚ)
    (hq : 0 < q) (category : String) (hcat : category ∈ t.categories)
    (date : DateInput) (d : Date) (hdate : parseDateInput date = .ok d)
    (desc : String) :
    (t.add_expense false (.ofFloat (.fin q)) category date desc).result =
        .error (.other "Error adding expense: Error saving expenses") ∧
      (t.add_expense false (.ofFloat (.fin q)) category date desc).tracker.expenses =
        t.expenses ++ [⟨.num (.fin q), category, d, desc⟩] ∧
      (t.add_expense false (.ofFloat (.fin q)) category date desc).saveCalled = true ∧
      (∀ msg, (t.add_expense false (.ofFloat (.fin q)) category date desc).result ≠
        .error (.validation msg)) := by
  have hle : (PyFloat.fin q).le0 = false := by
    simp [PyFloat.le0, not_le.mpr hq]
  refine ⟨?_, ?_, ?_, ?_⟩ <;>
    simp [ExpenseTracker.add_expense, hle, hcat, hdate]

/-- Witness for C9. -/
theorem c9_witness :
    (0 < (50 : ℚ) ∧
      "Food" ∈ (⟨[], "expenses.json", defaultCategories⟩ : ExpenseTracker).categories ∧
      parseDateInput (.text ⟨2024, 3, 5⟩) = .ok ⟨2024, 3, 5⟩) ∧
    ((⟨[], "expenses.json", defaultCategories⟩ : ExpenseTracker).add_expense false
          (.ofFloat (.fin 50)) "Food" (.text ⟨2024, 3, 5⟩) "lunch").result =
        .error (.other "Error adding expense: Error saving expenses") ∧
      ((⟨[], "expenses.json", defaultCategories⟩ : ExpenseTracker).add_expense false
          (.ofFloat (.fin 50)) "Food" (.text ⟨2024, 3, 5⟩) "lunch").tracker.expenses =
        [] ++ [⟨.num (.fin 50), "Food", ⟨2024, 3, 5⟩, "lunch"⟩] ∧
      ((⟨[], "expenses.json", defaultCategories⟩ : ExpenseTracker).add_expense false
          (.ofFloat (.fin 50)) "Food" (.text ⟨2024, 3, 5⟩) "lunch").saveCalled = true ∧
      (∀ msg, ((⟨[], "expenses.json", defaultCategories⟩ : ExpenseTracker).add_expense false
          (.ofFloat (.fin 50)) "Food" (.text ⟨2024, 3, 5⟩) "lunch").result ≠
        .error (.validation msg)) :=
  ⟨⟨by norm_num, by decide, by decide⟩,
    c9_save_failure_surfaced_record_kept _ 50 (by norm_num) "Food" (by decide)
      (.text ⟨2024, 3, 5⟩) ⟨2024, 3, 5⟩ (by decide) "lunch"⟩

/-- Counterexample to C6 as stated: on a concrete valid input,
`add_expense` succeeds but returns the boolean `True` (`return True` in
the source), not the newly created expense record the claim promises. -/
theorem c6_counterexample :
    ((⟨[], "expenses.json", defaultCategories⟩ : ExpenseTracker).add_expense true
        (.ofFloat (.fin 50)) "Food" (.text ⟨2024, 3, 5⟩) "lunch").result =
      .ok (.bool true) ∧
    ((⟨[], "expenses.json", defaultCategories⟩ : ExpenseTracker).add_expense true
        (.ofFloat (.fin 50)) "Food" (.text ⟨2024, 3, 5⟩) "lunch").result ≠
      .ok (.record ⟨.num (.fin 50), "Food", ⟨2024, 3, 5⟩, "lunch"⟩) := by
  have hres : ((⟨[], "expenses.json", defaultCategories⟩ : ExpenseTracker).add_expense true
      (.ofFloat (.fin 50)) "Food" (.text ⟨2024, 3, 5⟩) "lunch").result =
      .ok (.bool true) := by
    have h50 : ¬((50 : ℚ) ≤ 0) := by norm_num
    simp [ExpenseTracker.add_expense, parseDateInput, strptimeDate, Date.valid,
      daysInMonth, isLeap, PyFloat.le0, defaultCategories, h50]
  exact ⟨hres, by rw [hres]; simp⟩

/-- C6 as amended: on every valid input (positive finite amount, category
in the category list, parseable date) `add_expense` succeeds — returning
the success indicator `True`, not the record — and an unfiltered
`view_expenses` afterwards is the old ledger with the new record appended;
in particular, if no equal record was present before, the new record now
occurs exactly once. -/
theorem c6_add_appends_record (t : ExpenseTracker) (q : ℚ) (hq : 0 < q)
    (category : String) (hcat : category ∈ t.categories)
    (date : DateInput) (d : Date) (hdate : parseDateInput date = .ok d)
    (desc : String) :
    (t.add_expense true (.ofFloat (.fin q)) category date desc).result =
        .ok (.bool true) ∧
      (t.add_expense true (.ofFloat (.fin q)) category date desc).tracker.view_expenses
          none none none = t.expenses ++ [⟨.num (.fin q), category, d, desc⟩] ∧
      ((⟨.num (.fin q), category, d, desc⟩ : Expense) ∉ t.expenses →
        ((t.add_expense true (.ofFloat (.fin q)) category date
            desc).tracker.view_expenses none none none).count
          ⟨.num (.fin q), category, d, desc⟩ = 1) := by
  have hle : (PyFloat.fin q).le0 = false := by
    simp [PyFloat.le0, not_le.mpr hq]
  refine ⟨?_, ?_, ?_⟩
  · simp [ExpenseTracker.add_expense, hle, hcat, hdate]
  · simp [ExpenseTracker.add_expense, ExpenseTracker.view_expenses, hle, hcat, hdate]
  · intro hnotmem
    simp [ExpenseTracker.add_expense, ExpenseTracker.view_expenses, hle, hcat, hdate,
      List.count_append, List.count_eq_zero.mpr hnotmem]

/-- Witness for the amended C6. -/
theorem c6_witness :
    (0 < (50 : ℚ) ∧
      "Food" ∈ (⟨[], "expenses.json", defaultCategories⟩ : ExpenseTracker).categories ∧
      parseDateInput (.text ⟨2024, 3, 5⟩) = .ok ⟨2024, 3, 5⟩) ∧
    ((⟨[], "expenses.json", defaultCategories⟩ : ExpenseTracker).add_expense true
          (.ofFloat (.fin 50)) "Food" (.text ⟨2024, 3, 5⟩) "lunch").result =
        .ok (.bool true) ∧
      ((⟨[], "expenses.json", defaultCategories⟩ : ExpenseTracker).add_expense true
          (.ofFloat (.fin 50)) "Food" (.text ⟨2024, 3, 5⟩)
          "lunch").tracker.view_expenses none none none =
        [] ++ [⟨.num (.fin 50), "Food", ⟨2024, 3, 5⟩, "lunch"⟩] ∧
      ((⟨.num (.fin 50), "Food", ⟨2024, 3, 5⟩, "lunch"⟩ : Expense) ∉
          ([] : List Expense) →
        (((⟨[], "expenses.json", defaultCategories⟩ : ExpenseTracker).add_expense true
            (.ofFloat (.fin 50)) "Food" (.text ⟨2024, 3, 5⟩)
            "lunch").tracker.view_expenses none none none).count
          ⟨.num (.fin 50), "Food", ⟨2024, 3, 5⟩, "lunch"⟩ = 1) :=
  ⟨⟨by norm_num, by decide, by decide⟩,
    c6_add_appends_record ⟨[], "expenses.json", defaultCategories⟩ 50 (by norm_num)
      "Food" (by decide) (.text ⟨2024, 3, 5⟩) ⟨2024, 3, 5⟩ (by decide) "lunch"⟩

/-- The category stage of `view_expenses` is the filter by the C4
category condition (absent/empty/`"All"` means no constraint). -/
theorem viewStageCategory (l : List Expense) (fc : Option String) :
    (match fc with
     | none => l
     | some c => if c ≠ "" ∧ c ≠ "All" then l.filter (fun e => e.category == c) else l)
    = l.filter (fun e =>
        match fc with
        | none => true
        | some c => (c == "") || (c == "All") || (e.category == c)) := by
  cases fc with
  | none => simp
  | some c =>
    by_cases h1 : c = ""
    · subst h1; simp
    · by_cases h2 : c = "All"
      · subst h2; simp
      · simp only [if_pos (And.intro h1 h2)]
        exact List.filter_congr (fun e he => by simp [h1, h2])

/-- The month stage of `view_expenses` is the filter by the C4 month
condition (absent/`0` means no constraint). -/
theorem viewStageMonth (l : List Expense) (fm : Option ℕ) :
    (match fm with
     | none => l
     | some m => if m ≠ 0 then l.filter (fun e => e.date.month == m) else l)
    = l.filter (fun e =>
        match fm with
        | none => true
        | some m => (m == 0) || (e.date.month == m)) := by
  cases fm with
  | none => simp
  | some m =>
    by_cases h1 : m = 0
    · subst h1; simp
    · simp only [if_pos h1]
      exact List.filter_congr (fun e he => by simp [h1])

/-- The year stage of `view_expenses` is the filter by the C4 year
condition (absent/`0` means no constraint). -/
theorem viewStageYear (l : List Expense) (fy : Option ℕ) :
    (match fy with
     | none => l
     | some y => if y ≠ 0 then l.filter (fun e => e.date.year == y) else l)
    = l.filter (fun e =>
        match fy with
        | none => true
        | some y => (y == 0) || (e.date.year == y)) := by
  cases fy with
  | none => simp
  | some y =>
    by_cases h1 : y = 0
    · subst h1; simp
    · simp only [if_pos h1]
      exact List.filter_congr (fun e he => by simp [h1])

/-- C4: `view_expenses` returns, in insertion order, exactly the records
matching the conjunction of the three optional filters (where an absent
filter, or the falsy/`"All"` sentinel, imposes no constraint), and with
all filters absent it returns every record in insertion order.  It never
mutates the ledger (it is a pure function of the tracker state by
construction). -/
theorem c4_view_expenses_is_conjunctive_filter (t : ExpenseTracker)
    (fc : Option String) (fm fy : Option ℕ) :
    t.view_expenses fc fm fy = t.expenses.filter (matchesFilters fc fm fy) ∧
      t.view_expenses none none none = t.expenses := by
  refine ⟨?_, rfl⟩
  simp only [ExpenseTracker.view_expenses]
  rw [viewStageCategory, viewStageMonth, viewStageYear, List.filter_filter,
    List.filter_filter]
  refine List.filter_congr (fun e he => ?_)
  simp only [matchesFilters]
  cases hc : (match fc with
    | none => true
    | some c => (c == "") || (c == "All") || (e.category == c)) <;>
  cases hm : (match fm with
    | none => true
    | some m => (m == 0) || (e.date.month == m)) <;>
  cases hy : (match fy with
    | none => true
    | some y => (y == 0) || (e.date.year == y)) <;>
  simp [hc, hm, hy]

theorem pySum_numeric (l : List PyVal) (h : ∀ v ∈ l, ∃ x, v = PyVal.num x) :
    pySum l = some (sumF (l.map amountFloat)) := by
  have gen : ∀ (l2 : List PyVal) (a : PyFloat), (∀ v ∈ l2, ∃ x, v = PyVal.num x) →
      l2.foldl (fun acc v => acc.bind fun b => pyAdd b v) (some a)
        = some (a.add (sumF (l2.map amountFloat))) := by
    intro l2
    induction l2 with
    | nil =>
      intro a _
      simp only [List.foldl_nil, List.map_nil, sumF]
      rw [show (0 : PyFloat) = PyFloat.fin 0 from rfl, PyFloat.add_zero_fin]
    | cons v vs ih =>
      intro a hv
      obtain ⟨x, rfl⟩ := hv v (by simp)
      have hstep : List.foldl (fun acc v => acc.bind fun b => pyAdd b v) (some a)
          (PyVal.num x :: vs)
          = List.foldl (fun acc v => acc.bind fun b => pyAdd b v) (some (a.add x)) vs := rfl
      rw [hstep, ih (a.add x) (fun w hw => hv w (by simp [hw]))]
      simp [sumF, amountFloat, PyFloat.addAssoc]
  unfold pySum
  rw [gen l 0 h]
  rw [show (0 : PyFloat) = PyFloat.fin 0 from rfl, PyFloat.add_fin_zero]

def buildBC : List (String × PyFloat) → List (String × PyFloat) → List (String × PyFloat)
  | acc, [] => acc
  | acc, (c, x) :: ps => buildBC (bumpCategory acc c x) ps

theorem byCategoryFold_numeric (sel : List Expense)
    (h : ∀ e ∈ sel, ∃ x, e.amount = PyVal.num x) :
    byCategoryFold sel =
      some (buildBC [] (sel.map (fun e => (e.category, amountFloat e.amount)))) := by
  have gen : ∀ (l : List Expense) (acc : List (String × PyFloat)),
      (∀ e ∈ l, ∃ x, e.amount = PyVal.num x) →
      l.foldl
        (fun a e => a.bind fun bc =>
          match e.amount with
          | .num x => some (bumpCategory bc e.category x)
          | .str _ => none)
        (some acc)
        = some (buildBC acc (l.map fun e => (e.category, amountFloat e.amount))) := by
    intro l
    induction l with
    | nil => intro acc _; simp [buildBC]
    | cons e es ih =>
      intro acc hl
      obtain ⟨x, hx⟩ := hl e (by simp)
      have hstep : List.foldl
          (fun a e => a.bind fun bc =>
            match e.amount with
            | PyVal.num x => some (bumpCategory bc e.category x)
            | PyVal.str _ => none)
          (some acc) (e :: es)
          = List.foldl
            (fun a e => a.bind fun bc =>
              match e.amount with
              | PyVal.num x => some (bumpCategory bc e.category x)
              | PyVal.str _ => none)
            (some (bumpCategory acc e.category x)) es := by
        simp [List.foldl_cons, hx]
      rw [hstep, ih (bumpCategory acc e.category x) (fun w hw => hl w (by simp [hw]))]
      simp [buildBC, hx, amountFloat]
  exact gen sel [] h

theorem bump_sumVals (bc : List (String × PyFloat)) (c : String) (x : PyFloat) :
    sumF ((bumpCategory bc c x).map Prod.snd) = (sumF (bc.map Prod.snd)).add x := by
  induction bc with
  | nil =>
    simp only [bumpCategory, List.map_cons, List.map_nil, sumF]
    rw [show (0 : PyFloat) = PyFloat.fin 0 from rfl]
    simp [PyFloat.add_fin_zero, PyFloat.add_zero_fin]
  | cons p rest ih =>
    obtain ⟨c1, v⟩ := p
    by_cases hc : c1 = c
    · subst hc
      simp only [bumpCategory, if_pos rfl, List.map_cons, sumF]
      rw [PyFloat.addAssoc, PyFloat.addAssoc,
        PyFloat.addComm x (sumF (rest.map Prod.snd))]
    · simp only [bumpCategory, if_neg hc, List.map_cons, sumF, ih]
      rw [PyFloat.addAssoc]

theorem bump_lookup (bc : List (String × PyFloat)) (c : String) (x : PyFloat)
    (c2 : String) :
    lookupCat (bumpCategory bc c x) c2 =
      if c2 = c then some ((lookupCatD bc c).add x) else lookupCat bc c2 := by
  induction bc with
  | nil =>
    by_cases h : c2 = c
    · subst h
      simp [bumpCategory, lookupCat, lookupCatD]
    · have h2 : ¬c = c2 := fun hx => h hx.symm
      simp [bumpCategory, lookupCat, lookupCatD, h, h2]
  | cons p rest ih =>
    obtain ⟨c1, v⟩ := p
    by_cases hc : c1 = c
    · subst hc
      by_cases h2 : c2 = c1
      · subst h2
        simp [bumpCategory, lookupCat, lookupCatD]
      · have h3 : ¬c1 = c2 := fun hx => h2 hx.symm
        simp [bumpCategory, lookupCat, lookupCatD, h2, h3]
    · by_cases h2 : c2 = c
      · subst h2
        have h3 : ¬c1 = c2 := hc
        simp [bumpCategory, hc, lookupCat, h3, ih, lookupCatD]
      · by_cases h3 : c1 = c2
        · subst h3
          simp [bumpCategory, hc, lookupCat, h2]
        · simp [bumpCategory, hc, lookupCat, h3, ih, h2]

theorem bump_lookupD (bc : List (String × PyFloat)) (c : String) (x : PyFloat)
    (c2 : String) :
    lookupCatD (bumpCategory bc c x) c2 =
      if c2 = c then (lookupCatD bc c).add x else lookupCatD bc c2 := by
  by_cases h : c2 = c
  · simp [lookupCatD, bump_lookup, h]
  · simp [lookupCatD, bump_lookup, h]

theorem bump_keys (bc : List (String × PyFloat)) (c : String) (x : PyFloat)
    (c2 : String) :
    c2 ∈ (bumpCategory bc c x).map Prod.fst ↔ c2 = c ∨ c2 ∈ bc.map Prod.fst := by
  induction bc with
  | nil => simp [bumpCategory]
  | cons p rest ih =>
    obtain ⟨c1, v⟩ := p
    by_cases hc : c1 = c
    · subst hc
      simp [bumpCategory]
    · simp [bumpCategory, hc, ih]
      tauto

theorem lookup_isSome_iff (bc : List (String × PyFloat)) (c : String) :
    (lookupCat bc c).isSome ↔ c ∈ bc.map Prod.fst := by
  induction bc with
  | nil => simp [lookupCat]
  | cons p rest ih =>
    obtain ⟨c1, v⟩ := p
    by_cases h : c1 = c
    · subst h; simp [lookupCat]
    · have h2 : ¬c = c1 := fun hx => h hx.symm
      simp [lookupCat, h, h2, ih]

theorem lookup_eq_lookupCatD (bc : List (String × PyFloat)) (c : String)
    (h : c ∈ bc.map Prod.fst) :
    lookupCat bc c = some (lookupCatD bc c) := by
  have hsome := (lookup_isSome_iff bc c).mpr h
  obtain ⟨v, hv⟩ := Option.isSome_iff_exists.mp hsome
  simp [lookupCatD, hv]

theorem buildBC_sumVals (ps : List (String × PyFloat)) :
    ∀ acc, sumF ((buildBC acc ps).map Prod.snd) =
      (sumF (acc.map Prod.snd)).add (sumF (ps.map Prod.snd)) := by
  induction ps with
  | nil =>
    intro acc
    simp only [buildBC, List.map_nil, sumF]
    rw [show (0 : PyFloat) = PyFloat.fin 0 from rfl, PyFloat.add_zero_fin]
  | cons p rest ih =>
    intro acc
    obtain ⟨c, x⟩ := p
    simp only [buildBC, List.map_cons, sumF]
    rw [ih (bumpCategory acc c x), bump_sumVals, PyFloat.addAssoc]

theorem buildBC_lookupD (ps : List (String × PyFloat)) (c : String) :
    ∀ acc, lookupCatD (buildBC acc ps) c =
      (lookupCatD acc c).add
        (sumF ((ps.filter (fun p => p.1 == c)).map Prod.snd)) := by
  induction ps with
  | nil =>
    intro acc
    simp only [buildBC, List.filter_nil, List.map_nil, sumF]
    rw [show (0 : PyFloat) = PyFloat.fin 0 from rfl, PyFloat.add_zero_fin]
  | cons p rest ih =>
    intro acc
    obtain ⟨c1, x⟩ := p
    by_cases h : c1 = c
    · subst h
      rw [buildBC, ih (bumpCategory acc c1 x), bump_lookupD]
      simp only [if_pos rfl, List.filter_cons, beq_self_eq_true, if_true,
        List.map_cons, sumF]
      rw [PyFloat.addAssoc]
    · have hbeq : (c1 == c) = false := by simp [h]
      have h2 : ¬c = c1 := fun hx => h hx.symm
      rw [buildBC, ih (bumpCategory acc c1 x), bump_lookupD]
      simp [hbeq, h2]

theorem buildBC_keys (ps : List (String × PyFloat)) (c : String) :
    ∀ acc, c ∈ (buildBC acc ps).map Prod.fst ↔
      c ∈ acc.map Prod.fst ∨ c ∈ ps.map Prod.fst := by
  induction ps with
  | nil => intro acc; simp [buildBC]
  | cons p rest ih =>
    intro acc
    obtain ⟨c1, x⟩ := p
    simp only [buildBC, List.map_cons, List.mem_cons]
    rw [ih (bumpCategory acc c1 x)]
    rw [bump_keys]
    tauto

/-- C3: for explicitly supplied month `m` and year `y` (non-zero, i.e. not
the falsy sentinel) on a ledger of numeric amounts, `monthly_summary`
returns `total` equal to the sum of `amount` over exactly the records
whose date has month `m` and year `y` (`0` when there are none), `count`
equal to their number, and `by_category` whose keys are exactly the
categories appearing among those records, whose value at each such
category is the sum of the selected amounts of that category, and whose values
sum to `total`.  The call never changes the ledger: in this embedding it
is a pure function of the tracker state. -/
theorem c3_monthly_summary_correct (t : ExpenseTracker) (nowM nowY m y : ℕ)
    (hm : m ≠ 0) (hy : y ≠ 0)
    (hnum : ∀ e ∈ t.expenses, ∃ x, e.amount = PyVal.num x) :
    ∃ s, t.monthly_summary nowM nowY (some m) (some y) = .ok s ∧
      s.total = sumF ((selectedForMonth t m y).map (fun e => amountFloat e.amount)) ∧
      s.count = (selectedForMonth t m y).length ∧
      (∀ c, c ∈ s.by_category.map Prod.fst ↔
        c ∈ (selectedForMonth t m y).map Expense.category) ∧
      (∀ c, c ∈ (selectedForMonth t m y).map Expense.category →
        lookupCat s.by_category c =
          some (sumF (((selectedForMonth t m y).filter
            (fun e => e.category == c)).map (fun e => amountFloat e.amount)))) ∧
      sumF (s.by_category.map Prod.snd) = s.total ∧
      (selectedForMonth t m y = [] → s.total = 0) := by
  have hnumsel : ∀ e ∈ selectedForMonth t m y, ∃ x, e.amount = PyVal.num x :=
    fun e he => hnum e (List.mem_of_mem_filter he)
  have hps : pySum ((selectedForMonth t m y).map Expense.amount)
      = some (sumF (((selectedForMonth t m y).map Expense.amount).map amountFloat)) :=
    pySum_numeric _ (by
      intro v hv
      obtain ⟨e, he, rfl⟩ := List.mem_map.mp hv
      exact hnumsel e he)
  have hbc := byCategoryFold_numeric (selectedForMonth t m y) hnumsel
  have hmapmap : ((selectedForMonth t m y).map Expense.amount).map amountFloat
      = (selectedForMonth t m y).map (fun e => amountFloat e.amount) := by
    rw [List.map_map]; rfl
  have hms : t.monthly_summary nowM nowY (some m) (some y) =
      .ok ⟨sumF ((selectedForMonth t m y).map fun e => amountFloat e.amount),
           buildBC [] ((selectedForMonth t m y).map
             fun e => (e.category, amountFloat e.amount)),
           (selectedForMonth t m y).length⟩ := by
    unfold ExpenseTracker.monthly_summary
    simp only [if_neg hm, if_neg hy]
    rw [show t.expenses.filter (fun e => e.date.month == m && e.date.year == y)
        = selectedForMonth t m y from rfl]
    rw [hps, hbc, hmapmap]
  refine ⟨_, hms, rfl, rfl, ?_, ?_, ?_, ?_⟩
  · intro c
    rw [buildBC_keys]
    simp [List.map_map, Function.comp]
  · intro c hc
    have hkey : c ∈ (buildBC []
        ((selectedForMonth t m y).map
          fun e => (e.category, amountFloat e.amount))).map Prod.fst := by
      rw [buildBC_keys]
      refine Or.inr ?_
      simpa [List.map_map, Function.comp] using hc
    rw [lookup_eq_lookupCatD _ _ hkey, buildBC_lookupD]
    rw [show lookupCatD [] c = PyFloat.fin 0 from rfl, PyFloat.add_fin_zero]
    rw [List.filter_map]
    congr 1
    rw [List.map_map]
    congr 1
  · rw [buildBC_sumVals]
    rw [show sumF (([] : List (String × PyFloat)).map Prod.snd) = PyFloat.fin 0 from rfl,
      PyFloat.add_fin_zero]
    rw [List.map_map]
    rfl
  · intro hempty
    rw [hempty]
    rfl

/-- The concrete ledger of the test scenario in the spec: 50.00 Food 2024-03-05
"lunch", 20.00 Food 2024-03-10, 100.00 Rent/Mortgage 2024-03-01. -/
def scenarioTracker : ExpenseTracker :=
  ⟨[⟨.num (.fin 50), "Food", ⟨2024, 3, 5⟩, "lunch"⟩,
    ⟨.num (.fin 20), "Food", ⟨2024, 3, 10⟩, ""⟩,
    ⟨.num (.fin 100), "Rent/Mortgage", ⟨2024, 3, 1⟩, ""⟩],
   "expenses.json", defaultCategories⟩

/-- Witness for C3: the scenario ledger of the spec, summarised for 2024-03. -/
theorem c3_witness :
    ((3 : ℕ) ≠ 0 ∧ (2024 : ℕ) ≠ 0 ∧
      (∀ e ∈ scenarioTracker.expenses, ∃ x, e.amount = PyVal.num x)) ∧
    (∃ s, scenarioTracker.monthly_summary 1 2000 (some 3) (some 2024) = .ok s ∧
      s.total = sumF ((selectedForMonth scenarioTracker 3 2024).map
        (fun e => amountFloat e.amount)) ∧
      s.count = (selectedForMonth scenarioTracker 3 2024).length ∧
      (∀ c, c ∈ s.by_category.map Prod.fst ↔
        c ∈ (selectedForMonth scenarioTracker 3 2024).map Expense.category) ∧
      (∀ c, c ∈ (selectedForMonth scenarioTracker 3 2024).map Expense.category →
        lookupCat s.by_category c =
          some (sumF (((selectedForMonth scenarioTracker 3 2024).filter
            (fun e => e.category == c)).map (fun e => amountFloat e.amount)))) ∧
      sumF (s.by_category.map Prod.snd) = s.total ∧
      (selectedForMonth scenarioTracker 3 2024 = [] → s.total = 0)) :=
  ⟨⟨by decide, by decide, by
      intro e he
      simp only [scenarioTracker, List.mem_cons, List.not_mem_nil, or_false] at he
      rcases he with rfl | rfl | rfl <;> exact ⟨_, rfl⟩⟩,
    c3_monthly_summary_correct scenarioTracker 1 2000 3 2024 (by decide) (by decide)
      (by
        intro e he
        simp only [scenarioTracker, List.mem_cons, List.not_mem_nil, or_false] at he
        rcases he with rfl | rfl | rfl <;> exact ⟨_, rfl⟩)⟩
